import Mathlib

/-!
Shallow embedding of the `WL_`-prefixed C shim in
`crates/worthless-quickjs-sys/quickjs-api/api.c` (and its wasm twin),
together with a model of the QuickJS primitives it forwards to.

The engine header `quickjs.h` is referenced by the shim but its sources are
not part of this listing, so the engine-side definitions (`JSValue` tags,
`JS_DupValue`, `JS_FreeValue`, the value constructors and the sentinel
constants) are modelled from the specification: an engine value is an opaque
tagged union; reference counting is a count of live owners of a heap value,
and reaching zero triggers deallocation.

Doubles are modelled as exact rationals (`Rat`): the shim performs no
floating-point arithmetic, it only moves the payload around, so an exact
numeric carrier captures everything the claims exercise (NaN and signed
zero are outside the model).
-/

/-- Modelled from the spec: the engine's heap tags that carry a reference
count (the spec's "heap-allocated engine value"); in `quickjs.h` these are
the tags for which `JS_VALUE_HAS_REF_COUNT` holds. -/
inductive RefTag where
  | object
  | string
  deriving DecidableEq, Repr

/-- Modelled from the spec: an engine value ("an opaque tagged union
representing a JavaScript-level value in the embedded engine's internal
representation").  Primitive values carry their payload inline; heap values
carry a pointer (modelled as a `Nat` address) into the engine heap. -/
inductive JSValue where
  | mkInt (i : Int)
  | mkBool (b : Bool)
  | null
  | undefined
  | mkFloat64 (d : Rat)
  | mkRef (tag : RefTag) (p : Nat)
  deriving DecidableEq, Repr

/-- Modelled from the spec: the engine value tags, as reflected by the
engine's `JS_VALUE_GET_TAG` reflection API. -/
inductive JSTag where
  | JS_TAG_INT
  | JS_TAG_BOOL
  | JS_TAG_NULL
  | JS_TAG_UNDEFINED
  | JS_TAG_FLOAT64
  | JS_TAG_OBJECT
  | JS_TAG_STRING
  deriving DecidableEq, Repr

/-- Modelled from the spec: the tag of a value. -/
def JS_VALUE_GET_TAG : JSValue → JSTag
  | .mkInt _ => .JS_TAG_INT
  | .mkBool _ => .JS_TAG_BOOL
  | .null => .JS_TAG_NULL
  | .undefined => .JS_TAG_UNDEFINED
  | .mkFloat64 _ => .JS_TAG_FLOAT64
  | .mkRef .object _ => .JS_TAG_OBJECT
  | .mkRef .string _ => .JS_TAG_STRING

/-- Modelled from the spec: `JS_VALUE_HAS_REF_COUNT` — whether the value is
a heap-allocated, reference-counted value. -/
def JS_VALUE_HAS_REF_COUNT : JSValue → Bool
  | .mkRef _ _ => true
  | _ => false

/-- Modelled from the spec: `JS_VALUE_GET_PTR` — the heap address of a
reference-counted value (meaningless, defaulted to 0, otherwise; the shim
only reads it under the `JS_VALUE_HAS_REF_COUNT` guard). -/
def JS_VALUE_GET_PTR : JSValue → Nat
  | .mkRef _ p => p
  | _ => 0

/-- Modelled from the spec: the mutable engine state reachable through a
`JSContext`: for each heap address, the `ref_count` field of its
`JSRefCountHeader`, and whether the allocation is still live. -/
structure EngineState where
  refCount : Nat → Int
  alive : Nat → Bool

/-- Overwrite the `ref_count` header field at address `p`. -/
def EngineState.setRefCount (s : EngineState) (p : Nat) (n : Int) : EngineState :=
  { s with refCount := fun q => if q = p then n else s.refCount q }

/-- Modelled from the spec: `__JS_FreeValue` — release (deallocate) the heap
cell at address `p` ("reaching zero triggers deallocation"). -/
def EngineState.release (s : EngineState) (p : Nat) : EngineState :=
  { s with alive := fun q => if q = p then false else s.alive q }

/-- Modelled from the spec: the engine's `JS_DupValue` — "increments
reference count, returns same value".  Non-reference-counted values are
returned unchanged with no state effect. -/
def JS_DupValue (s : EngineState) (v : JSValue) : EngineState × JSValue :=
  if JS_VALUE_HAS_REF_COUNT v then
    let p := JS_VALUE_GET_PTR v
    (s.setRefCount p (s.refCount p + 1), v)
  else
    (s, v)

/-- Modelled from the spec: the engine's `JS_FreeValue` — "decrements
reference count, releases at zero".  Non-reference-counted values are
ignored. -/
def JS_FreeValue (s : EngineState) (v : JSValue) : EngineState :=
  if JS_VALUE_HAS_REF_COUNT v then
    let p := JS_VALUE_GET_PTR v
    let s1 := s.setRefCount p (s.refCount p - 1)
    if s1.refCount p ≤ 0 then s1.release p else s1
  else
    s

/-- Modelled from the spec: the engine's raw float64 constructor
`__JS_NewFloat64` — wraps a double as a float64-tagged engine value, with
no canonicalization.  The context argument is unused by the engine here. -/
def __JS_NewFloat64 (_ctx : EngineState) (d : Rat) : JSValue :=
  JSValue.mkFloat64 d

/-- Modelled from the spec: the engine's public constructor `JS_NewFloat64`
— wraps a double as an engine value, canonicalizing a double that is
exactly representable as a 32-bit integer to an int-tagged value. -/
def JS_NewFloat64 (_ctx : EngineState) (d : Rat) : JSValue :=
  if d.den = 1 ∧ -(2 ^ 31) ≤ d.num ∧ d.num < 2 ^ 31 then
    JSValue.mkInt d.num
  else
    JSValue.mkFloat64 d

/-- Modelled from the spec: the engine's `JS_NewInt32` — "wraps a 32-bit
integer as an engine value". -/
def JS_NewInt32 (_ctx : EngineState) (i : Int) : JSValue :=
  JSValue.mkInt i

/-- Modelled from the spec: the engine's `JS_NewBool` — "wraps a boolean
flag as an engine value" (a C `int` flag; nonzero means true). -/
def JS_NewBool (_ctx : EngineState) (flag : Int) : JSValue :=
  JSValue.mkBool (flag != 0)

/-- Modelled from the spec: the engine's singleton sentinel `JS_NULL`. -/
def JS_NULL : JSValue := JSValue.null

/-- Modelled from the spec: the engine's singleton sentinel `JS_UNDEFINED`. -/
def JS_UNDEFINED : JSValue := JSValue.undefined

/-- Modelled from the spec: the engine's singleton sentinel `JS_TRUE`. -/
def JS_TRUE : JSValue := JSValue.mkBool true

/-- Modelled from the spec: the engine's own strict-equality observation on
values (JavaScript `===` as exposed by the engine API): numbers compare by
numeric value across the int/float64 tags, other primitives by tag and
payload, heap values by identity (address). -/
def JS_StrictEq : JSValue → JSValue → Bool
  | .mkInt a, .mkInt b => a == b
  | .mkInt a, .mkFloat64 b => (a : Rat) == b
  | .mkFloat64 a, .mkInt b => a == (b : Rat)
  | .mkFloat64 a, .mkFloat64 b => a == b
  | .mkBool a, .mkBool b => a == b
  | .null, .null => true
  | .undefined, .undefined => true
  | .mkRef _ p, .mkRef _ q => p == q
  | _, _ => false

/-! ## The shim (`api.c`), embedded from the source -/

/-- `api.c` line 3: `const JSValue WL_JS_NULL = JS_NULL;` -/
def WL_JS_NULL : JSValue := JS_NULL

/-- `api.c` line 4: `const JSValue WL_JS_UNDEFINED = JS_UNDEFINED;` -/
def WL_JS_UNDEFINED : JSValue := JS_UNDEFINED

/-- `api.c` line 5: `const JSValue WL_JS_TRUE = JS_TRUE;` -/
def WL_JS_TRUE : JSValue := JS_TRUE

/-- `api.c` lines 7–15: `WL_GetRefCount` — if the value has a reference
count, read the `ref_count` field of its `JSRefCountHeader`; else return
0.  The engine state is the heap the header pointer dereferences into. -/
def WL_GetRefCount (s : EngineState) (v : JSValue) : Int :=
  if JS_VALUE_HAS_REF_COUNT v then
    s.refCount (JS_VALUE_GET_PTR v)
  else
    0

/-- `api.c` lines 7–15 again, with the state threading made explicit: each
branch of the C function returns without writing to the heap.  Used to
state the frame property of the observer. -/
def WL_GetRefCount_run (s : EngineState) (v : JSValue) : EngineState × Int :=
  if JS_VALUE_HAS_REF_COUNT v then
    (s, s.refCount (JS_VALUE_GET_PTR v))
  else
    (s, 0)

/-- `api.c` lines 17–20: `WL_JS_DupValue` — `return JS_DupValue(ctx, v);` -/
def WL_JS_DupValue (s : EngineState) (v : JSValue) : EngineState × JSValue :=
  JS_DupValue s v

/-- `api.c` lines 22–25: `WL_JS_FreeValue` — `JS_FreeValue(ctx, val);` -/
def WL_JS_FreeValue (s : EngineState) (v : JSValue) : EngineState :=
  JS_FreeValue s v

/-- `api.c` lines 27–30: `WL_JS_NewFloat64` — `return __JS_NewFloat64(ctx, d);` -/
def WL_JS_NewFloat64 (ctx : EngineState) (d : Rat) : JSValue :=
  __JS_NewFloat64 ctx d

/-- `api.c` lines 32–35: `WL_JS_NewInt32` — `return JS_NewInt32(ctx, val);` -/
def WL_JS_NewInt32 (ctx : EngineState) (i : Int) : JSValue :=
  JS_NewInt32 ctx i

/-- `api.c` lines 37–40: `WL_JS_NewBool` — `return JS_NewBool(ctx, val);` -/
def WL_JS_NewBool (ctx : EngineState) (flag : Int) : JSValue :=
  JS_NewBool ctx flag

/-- A concrete engine state used by the witness theorems: address 0 holds a
live cell with reference count 2, everything else is a dead cell. -/
def sampleState : EngineState :=
  { refCount := fun p => if p = 0 then 2 else 0
    alive := fun p => p == 0 }

/-- A concrete reference-counted value living at address 0 of `sampleState`. -/
def sampleObj : JSValue := JSValue.mkRef RefTag.object 0

/-! ## Claims -/

/-- C1: for every context and double `d`, `WL_JS_NewFloat64 ctx d` is
observably equal, by the engine's own strict-equality observation, to the
value produced by the engine's public constructor `JS_NewFloat64 ctx d`
(the shim calls the raw `__JS_NewFloat64`, which skips the int
canonicalization, but the two results denote the same number). -/
theorem C1_WL_JS_NewFloat64_refines_JS_NewFloat64 (ctx : EngineState) (d : Rat) :
    JS_StrictEq (WL_JS_NewFloat64 ctx d) (JS_NewFloat64 ctx d) = true := by
  unfold WL_JS_NewFloat64 __JS_NewFloat64 JS_NewFloat64
  split
  · rename_i h
    simp only [JS_StrictEq, beq_iff_eq]
    exact (Rat.coe_int_num_of_den_eq_one h.1).symm
  · simp [JS_StrictEq]

/-- C2: for every context state and value, duplicating the value and then
freeing it leaves the reference count reported by `WL_GetRefCount`
unchanged. -/
theorem C2_dup_then_free_preserves_refcount (s : EngineState) (v : JSValue) :
    WL_GetRefCount (WL_JS_FreeValue (WL_JS_DupValue s v).1 v) v
      = WL_GetRefCount s v := by
  cases v <;>
    simp [WL_JS_DupValue, WL_JS_FreeValue, JS_DupValue, JS_FreeValue,
      WL_GetRefCount, JS_VALUE_HAS_REF_COUNT, JS_VALUE_GET_PTR,
      EngineState.setRefCount, EngineState.release]
  split <;> simp [EngineState.release, EngineState.setRefCount]

/-- C3: for every context state and value, `WL_JS_DupValue` returns the
same value, and on a reference-counted value it increments the reference
count reported by `WL_GetRefCount` by one. -/
theorem C3_dup_increments_and_returns_same (s : EngineState) (v : JSValue) :
    (WL_JS_DupValue s v).2 = v ∧
    (JS_VALUE_HAS_REF_COUNT v = true →
      WL_GetRefCount (WL_JS_DupValue s v).1 v = WL_GetRefCount s v + 1) := by
  cases v <;>
    simp [WL_JS_DupValue, JS_DupValue, WL_GetRefCount,
      JS_VALUE_HAS_REF_COUNT, JS_VALUE_GET_PTR, EngineState.setRefCount]

/-- Witness for C3 at the concrete state `sampleState` and the
reference-counted value `sampleObj`. -/
theorem C3_witness :
    (WL_JS_DupValue sampleState sampleObj).2 = sampleObj ∧
    WL_GetRefCount (WL_JS_DupValue sampleState sampleObj).1 sampleObj
      = WL_GetRefCount sampleState sampleObj + 1 := by
  refine ⟨(C3_dup_increments_and_returns_same sampleState sampleObj).1, ?_⟩
  exact (C3_dup_increments_and_returns_same sampleState sampleObj).2 (by decide)

/-- C4: `WL_GetRefCount` returns the current reference count of a
reference-counted value, returns 0 on a non-reference-counted value, and
in particular returns 0 on `WL_JS_NULL`. -/
theorem C4_getRefCount_spec (s : EngineState) (v : JSValue) :
    (JS_VALUE_HAS_REF_COUNT v = true →
      WL_GetRefCount s v = s.refCount (JS_VALUE_GET_PTR v)) ∧
    (JS_VALUE_HAS_REF_COUNT v = false → WL_GetRefCount s v = 0) ∧
    WL_GetRefCount s WL_JS_NULL = 0 := by
  refine ⟨fun h => ?_, fun h => ?_, rfl⟩
  · simp [WL_GetRefCount, h]
  · simp [WL_GetRefCount, h]

/-- Witness for C4 at the concrete state `sampleState`, with the
reference-counted `sampleObj` and the non-reference-counted `WL_JS_NULL`. -/
theorem C4_witness :
    WL_GetRefCount sampleState sampleObj
        = sampleState.refCount (JS_VALUE_GET_PTR sampleObj) ∧
    WL_GetRefCount sampleState WL_JS_NULL = 0 :=
  ⟨(C4_getRefCount_spec sampleState sampleObj).1 (by decide),
   (C4_getRefCount_spec sampleState WL_JS_NULL).2.2⟩

/-- C5: on a live reference-counted value whose count is at least one,
`WL_JS_FreeValue` decrements the count by one and releases the allocation
exactly when the decremented count reaches zero. -/
theorem C5_free_decrements_and_releases_at_zero (s : EngineState) (tag : RefTag)
    (p : Nat) (hAlive : s.alive p = true) (hPos : 1 ≤ s.refCount p) :
    (WL_JS_FreeValue s (JSValue.mkRef tag p)).refCount p = s.refCount p - 1 ∧
    ((WL_JS_FreeValue s (JSValue.mkRef tag p)).alive p = false ↔
      s.refCount p - 1 = 0) := by
  have hfree : WL_JS_FreeValue s (JSValue.mkRef tag p)
      = if s.refCount p - 1 ≤ 0
          then (s.setRefCount p (s.refCount p - 1)).release p
          else s.setRefCount p (s.refCount p - 1) := by
    simp [WL_JS_FreeValue, JS_FreeValue, JS_VALUE_HAS_REF_COUNT,
      JS_VALUE_GET_PTR, EngineState.setRefCount]
  rw [hfree]
  by_cases hle : s.refCount p - 1 ≤ 0
  · rw [if_pos hle]
    refine ⟨by simp [EngineState.release, EngineState.setRefCount], ?_⟩
    simp [EngineState.release, EngineState.setRefCount]
    omega
  · rw [if_neg hle]
    refine ⟨by simp [EngineState.setRefCount], ?_⟩
    simp only [EngineState.setRefCount, hAlive]
    constructor
    · intro hFalse
      exact absurd hFalse (by simp)
    · intro hz
      omega

/-- Witness for C5 at the concrete state `sampleState` (count 2, live) and
the value `sampleObj` at address 0. -/
theorem C5_witness :
    (WL_JS_FreeValue sampleState sampleObj).refCount 0
        = sampleState.refCount 0 - 1 ∧
    ((WL_JS_FreeValue sampleState sampleObj).alive 0 = false ↔
      sampleState.refCount 0 - 1 = 0) :=
  C5_free_decrements_and_releases_at_zero sampleState RefTag.object 0
    (by decide) (by decide)

/-- C6: the exported constants `WL_JS_NULL`, `WL_JS_UNDEFINED` and
`WL_JS_TRUE` are the engine's singleton sentinel values `JS_NULL`,
`JS_UNDEFINED` and `JS_TRUE`. -/
theorem C6_constants_alias_engine_sentinels :
    WL_JS_NULL = JS_NULL ∧ WL_JS_UNDEFINED = JS_UNDEFINED ∧
    WL_JS_TRUE = JS_TRUE :=
  ⟨rfl, rfl, rfl⟩

/-- C7: for every context, `WL_JS_NewInt32` is observably equal to the
engine constructor `JS_NewInt32`, and `WL_JS_NewBool` to `JS_NewBool`
(both shim functions are direct pass-throughs). -/
theorem C7_newInt32_newBool_refine (ctx : EngineState) (i : Int) (flag : Int) :
    JS_StrictEq (WL_JS_NewInt32 ctx i) (JS_NewInt32 ctx i) = true ∧
    JS_StrictEq (WL_JS_NewBool ctx flag) (JS_NewBool ctx flag) = true := by
  constructor <;> simp [WL_JS_NewInt32, WL_JS_NewBool, JS_NewInt32,
    JS_NewBool, JS_StrictEq]

/-- C8: `WL_GetRefCount` is a pure observer: run with explicit state
threading it returns the engine state unchanged, and its result is the
reference count observation. -/
theorem C8_getRefCount_is_pure (s : EngineState) (v : JSValue) :
    (WL_GetRefCount_run s v).1 = s ∧
    (WL_GetRefCount_run s v).2 = WL_GetRefCount s v := by
  unfold WL_GetRefCount_run WL_GetRefCount
  split <;> exact ⟨rfl, rfl⟩

/-- C9: values built by `WL_JS_NewFloat64`, `WL_JS_NewInt32` and
`WL_JS_NewBool` are never reference-counted: `WL_GetRefCount` on them is 0,
and `WL_JS_DupValue` / `WL_JS_FreeValue` applied to them leave the whole
engine state (so every reference count) unchanged. -/
theorem C9_new_values_not_refcounted (ctx s : EngineState) (d : Rat)
    (i : Int) (flag : Int) :
    WL_GetRefCount s (WL_JS_NewFloat64 ctx d) = 0 ∧
    WL_GetRefCount s (WL_JS_NewInt32 ctx i) = 0 ∧
    WL_GetRefCount s (WL_JS_NewBool ctx flag) = 0 ∧
    (WL_JS_DupValue s (WL_JS_NewFloat64 ctx d)).1 = s ∧
    (WL_JS_DupValue s (WL_JS_NewInt32 ctx i)).1 = s ∧
    (WL_JS_DupValue s (WL_JS_NewBool ctx flag)).1 = s ∧
    WL_JS_FreeValue s (WL_JS_NewFloat64 ctx d) = s ∧
    WL_JS_FreeValue s (WL_JS_NewInt32 ctx i) = s ∧
    WL_JS_FreeValue s (WL_JS_NewBool ctx flag) = s := by
  refine ⟨rfl, rfl, rfl, rfl, rfl, rfl, rfl, rfl, rfl⟩

/-- C10: `WL_JS_NewFloat64` always returns a float64-tagged value, even
when the double is exactly representable as a 32-bit integer (the shim
calls `__JS_NewFloat64`, which never canonicalizes to an int tag). -/
theorem C10_newFloat64_keeps_float_tag (ctx : EngineState) (d : Rat) :
    JS_VALUE_GET_TAG (WL_JS_NewFloat64 ctx d) = JSTag.JS_TAG_FLOAT64 :=
  rfl
